import Mathlib

/-!
Shallow embedding of the Linux distribution resolver and upgrade dispatch
engine of `src/steps/os/linux.rs`, together with theorems checking the
specification's claims about it.

Strings are handled through explicit character-list recursions so that every
definition reduces inside the kernel on concrete inputs.
-/

set_option linter.unusedVariables false

namespace Topgrade

/-! ## String utilities (models of the Rust string operations used) -/

/-- Does the first list occur at the head of the second? (helper for substring search) -/
def leadsWith : List Char → List Char → Bool
  | [], _ => true
  | _ :: _, [] => false
  | a :: as, b :: bs => a == b && leadsWith as bs

/-- Does `pat` occur as a contiguous sublist of the given list? -/
def containsSubAux (pat : List Char) : List Char → Bool
  | [] => pat.isEmpty
  | c :: rest => leadsWith pat (c :: rest) || containsSubAux pat rest

/-- Model of Rust `str::contains(pat)`: substring containment. -/
def containsSubstr (hay pat : String) : Bool :=
  containsSubAux pat.data hay.data

/-- Helper for `splitWhitespace`; `acc` holds the current token reversed. -/
def splitWsAux : List Char → List Char → List String
  | [], acc => if acc.isEmpty then [] else [String.mk acc.reverse]
  | c :: rest, acc =>
    if c.isWhitespace then
      (if acc.isEmpty then [] else [String.mk acc.reverse]) ++ splitWsAux rest []
    else
      splitWsAux rest (c :: acc)

/-- Model of Rust `str::split_whitespace`: whitespace-separated tokens, no empties. -/
def splitWhitespace (s : String) : List String :=
  splitWsAux s.data []

/-- Build one line from reversed-order accumulated characters, dropping a trailing CR
as Rust `str::lines` does. -/
def mkLine (cs : List Char) : String :=
  String.mk (if cs.getLast? == some '\r' then cs.dropLast else cs)

/-- Helper for `rustLines`; `acc` holds the current line reversed. -/
def linesAux : List Char → List Char → List String
  | [], acc => if acc.isEmpty then [] else [mkLine acc.reverse]
  | c :: rest, acc =>
    if c == '\n' then mkLine acc.reverse :: linesAux rest []
    else linesAux rest (c :: acc)

/-- Model of Rust `str::lines`. -/
def rustLines (s : String) : List String :=
  linesAux s.data []

/-- Model of Rust `str::trim`: strip whitespace from both ends. -/
def rustTrim (s : String) : String :=
  String.mk (((s.data.dropWhile Char.isWhitespace).reverse.dropWhile Char.isWhitespace).reverse)

/-- Split a path on `/` (helper for the last-component test). -/
def splitSlashAux : List Char → List Char → List String
  | [], acc => [String.mk acc.reverse]
  | c :: rest, acc =>
    if c == '/' then String.mk acc.reverse :: splitSlashAux rest []
    else splitSlashAux rest (c :: acc)

/-- Model of Rust `Path::ends_with(component)` for a single component:
the last `/`-separated component of `p` equals `comp`. -/
def pathEndsWith (p comp : String) : Bool :=
  (splitSlashAux p.data []).getLastD "" == comp

/-! ## Data model: errors, distributions, identification record -/

/-- Error kinds raised by distribution resolution (`TopgradeError` in the source,
restricted to the variants this module can produce). -/
inductive TopgradeError where
  | UnknownLinuxDistribution
  | EmptyOSReleaseFile
  | IniLoadError
  deriving DecidableEq, Repr

/-- The closed enumeration of distribution variants, from `enum Distribution`. -/
inductive Distribution where
  | Alpine
  | Wolfi
  | Arch
  | Bedrock
  | CentOS
  | Chimera
  | ClearLinux
  | Fedora
  | FedoraImmutable
  | Debian
  | Gentoo
  | NILRT
  | OpenMandriva
  | OpenSuseTumbleweed
  | PCLinuxOS
  | Suse
  | SuseMicro
  | Vanilla
  | Void
  | Solus
  | Exherbo
  | NixOS
  | KDENeon
  | Nobara
  deriving DecidableEq, Repr

/-- `Distribution::redhat_based`. -/
def Distribution.redhat_based (d : Distribution) : Bool :=
  match d with
  | .CentOS | .Fedora => true
  | _ => false

/-- The general section of the parsed `/etc/os-release` file: the four keys the
resolver reads, plus whether the section is empty (`general_section().is_empty()`). -/
structure IniFile where
  sectionEmpty : Bool
  id : Option String
  name : Option String
  variant : Option String
  idLike : Option String
  deriving DecidableEq, Repr

/-- `Distribution::match_fedora_variant`. -/
def matchFedoraVariant (variant : Option String) : Distribution :=
  match variant with
  | some "Silverblue" | some "Kinoite" | some "Sericea" | some "Onyx"
  | some "IoT Edition" | some "Sway Atomic" | some "CoreOS" => .FedoraImmutable
  | _ => .Fedora

/-- The direct-`ID` arms of the `match` in `Distribution::parse_os_release`,
in source order; `none` means the wildcard (fallback) arm is taken. -/
def directIdMatch (id : Option String) (variant : Option String) : Option Distribution :=
  match id with
  | some "alpine" => some .Alpine
  | some "chimera" => some .Chimera
  | some "wolfi" => some .Wolfi
  | some "centos" | some "rhel" | some "ol" => some .CentOS
  | some "clear-linux-os" => some .ClearLinux
  | some "fedora" => some (matchFedoraVariant variant)
  | some "nilrt" => some .NILRT
  | some "nobara" => some .Nobara
  | some "void" => some .Void
  | some "debian" | some "pureos" | some "Deepin" | some "linuxmint" => some .Debian
  | some "arch" | some "manjaro-arm" | some "garuda" | some "artix" | some "cachyos" => some .Arch
  | some "solus" => some .Solus
  | some "gentoo" | some "funtoo" => some .Gentoo
  | some "exherbo" => some .Exherbo
  | some "nixos" => some .NixOS
  | some "opensuse-microos" => some .SuseMicro
  | some "neon" => some .KDENeon
  | some "openmandriva" => some .OpenMandriva
  | some "pclinuxos" => some .PCLinuxOS
  | _ => none

/-- Does `NAME` contain the `"Vanilla"` marker? (first check of the wildcard arm). -/
def hasVanillaName (r : IniFile) : Bool :=
  match r.name with
  | some n => containsSubstr n "Vanilla"
  | none => false

/-- The wildcard arm of `Distribution::parse_os_release`: the `NAME`-contains-Vanilla
check followed by the ordered `ID_LIKE` token scan. -/
def parseFallback (r : IniFile) : Except TopgradeError Distribution :=
  if hasVanillaName r then .ok .Vanilla
  else
    match r.idLike with
    | some raw =>
      let idLike := splitWhitespace raw
      if idLike.contains "debian" || idLike.contains "ubuntu" then .ok .Debian
      else if idLike.contains "centos" then .ok .CentOS
      else if idLike.contains "suse" then
        (if containsSubstr (r.id.getD "") "tumbleweed" then .ok .OpenSuseTumbleweed
         else .ok .Suse)
      else if idLike.contains "arch" || idLike.contains "archlinux" then .ok .Arch
      else if idLike.contains "alpine" then .ok .Alpine
      else if idLike.contains "fedora" then .ok (matchFedoraVariant r.variant)
      else .error .UnknownLinuxDistribution
    | none => .error .UnknownLinuxDistribution

/-- `Distribution::parse_os_release`: the direct-`ID` table first, otherwise the
wildcard (fallback) arm. -/
def Distribution.parse_os_release (r : IniFile) : Except TopgradeError Distribution :=
  match directIdMatch r.id r.variant with
  | some d => .ok d
  | none => parseFallback r

/-- State of the `/etc/os-release` probe in `Distribution::detect`. -/
inductive FileProbe where
  | absent
  | unparseable
  | parsed (ini : IniFile)
  deriving DecidableEq, Repr

/-- The filesystem facts `Distribution::detect` reads. -/
structure FsState where
  bedrockExists : Bool
  osRelease : FileProbe
  deriving DecidableEq, Repr

/-- `Distribution::detect`. -/
def Distribution.detect (fs : FsState) : Except TopgradeError Distribution :=
  if fs.bedrockExists then .ok .Bedrock
  else
    match fs.osRelease with
    | .parsed ini =>
      if ini.sectionEmpty then .error .EmptyOSReleaseFile
      else Distribution.parse_os_release ini
    | .unparseable => .error .IniLoadError
    | .absent => .error .EmptyOSReleaseFile

/-! ## Command execution abstraction -/

/-- One executed external invocation: elevation flag, program, ordered argument
list, output-capture flag, and the extra exit codes accepted as success. -/
structure Invocation where
  elevated : Bool
  program : String
  args : List String
  capture : Bool := false
  acceptedCodes : List Nat := []
  deriving DecidableEq, Repr

/-- Outcome of one upgrade step, separating deliberate skips, the several error
returns, and abnormal termination. -/
inductive StepOutcome where
  | ok
  | skipped
  | sudoRequired
  | toolMissing (tool : String)
  | execFailed (inv : Invocation)
  | detectFailed (e : TopgradeError)
  | panicked (msg : String)
  deriving DecidableEq, Repr

/-- The host environment a procedure runs against: tool lookup (`which`), path
existence probes, per-invocation exit codes and captured stdout, elevation
availability, the WSL probe, the interactive prompt's answer, and the behavior
of the Arch member procedure (which lives in a module outside this source). -/
structure Sys where
  whichPath : String → Option String
  pathExists : String → Bool
  exitCode : Invocation → Nat
  stdout : Invocation → String
  sudoAvailable : Bool
  isWsl : Bool
  promptAnswer : Bool
  archUpgrade : StepOutcome × List Invocation

/-- The policy flags the modelled procedures consult (`ctx.config()`). -/
structure Config where
  yesSystem : Bool
  yesWaydroid : Bool
  cleanup : Bool
  bootc : Bool
  rpmOstree : Bool
  redhatDistroSync : Bool
  firmwareUpgrade : Bool
  aptArguments : Option String := none
  dnfArguments : Option String := none

/-- Modelled from the spec: exit-status interpretation of `status_checked` /
`status_checked_with_codes` (the `command` module is not under `src/`).  A
caller-supplied set of exit codes is accepted as success in addition to the
default of zero; any other code is a failure. -/
def statusOk (s : Sys) (inv : Invocation) : Bool :=
  s.exitCode inv == 0 || inv.acceptedCodes.contains (s.exitCode inv)

/-- Run a list of invocations in order, aborting at the first one whose exit
code is outside its accepted set; returns the outcome and the executed trace. -/
def runAll (s : Sys) : List Invocation → StepOutcome × List Invocation
  | [] => (.ok, [])
  | i :: rest =>
    if statusOk s i then
      ((runAll s rest).1, i :: (runAll s rest).2)
    else (.execFailed i, [i])

/-- `if ctx.config().yes(Step::System) { command.arg("-y") }`. -/
def yesArg (c : Config) : List String :=
  if c.yesSystem then ["-y"] else []

/-- `ctx.config().apt_arguments()` split on whitespace, or nothing. -/
def aptArgs (c : Config) : List String :=
  (c.aptArguments.map splitWhitespace).getD []

/-- `ctx.config().dnf_arguments()` split on whitespace, or nothing. -/
def dnfArgs (c : Config) : List String :=
  (c.dnfArguments.map splitWhitespace).getD []

/-! ## Upgrade procedures -/

/-- The apt front-end chosen by `upgrade_debian`: `which("apt-fast")`, else
`mist` when found, else `/usr/bin/nala` when that path exists, else `apt-get`. -/
def debianAptPath (s : Sys) : String :=
  match s.whichPath "apt-fast" with
  | some p => p
  | none =>
    if (s.whichPath "mist").isSome then "mist"
    else if s.pathExists "/usr/bin/nala" then "/usr/bin/nala"
    else "apt-get"

/-- `upgrade_debian`. -/
def upgrade_debian (s : Sys) (c : Config) : StepOutcome × List Invocation :=
  let apt := debianAptPath s
  if pathEndsWith apt "mist" then
    runAll s
      [{ elevated := false, program := apt, args := ["update"] },
       { elevated := false, program := apt, args := ["upgrade"] }]
  else if !s.sudoAvailable then (.sudoRequired, [])
  else
    runAll s
      ((if pathEndsWith apt "nala" then []
        else [{ elevated := true, program := apt, args := ["update"], acceptedCodes := [0, 100] }]) ++
       [{ elevated := true, program := apt,
          args := [if pathEndsWith apt "nala" then "upgrade" else "dist-upgrade"] ++
                  yesArg c ++ aptArgs c }] ++
       (if c.cleanup then
          [{ elevated := true, program := apt, args := ["clean"] },
           { elevated := true, program := apt, args := ["autoremove"] ++ yesArg c }]
        else []))

/-- The `bootc` branch of `upgrade_redhat` / the traditional tail. -/
def upgrade_redhat_traditional (s : Sys) (c : Config) : StepOutcome × List Invocation :=
  if !s.sudoAvailable then (.sudoRequired, [])
  else
    runAll s
      [{ elevated := true, program := (s.whichPath "dnf").getD "yum",
         args := [if c.redhatDistroSync then "distro-sync" else "upgrade"] ++
                 dnfArgs c ++ yesArg c }]

/-- The `rpm-ostree` branch of `upgrade_redhat`, then the traditional tail. -/
def upgrade_redhat_after_bootc (s : Sys) (c : Config) : StepOutcome × List Invocation :=
  match s.whichPath "rpm-ostree" with
  | some ostree =>
    if c.rpmOstree then runAll s [{ elevated := false, program := ostree, args := ["upgrade"] }]
    else upgrade_redhat_traditional s c
  | none => upgrade_redhat_traditional s c

/-- `upgrade_redhat`. -/
def upgrade_redhat (s : Sys) (c : Config) : StepOutcome × List Invocation :=
  match s.whichPath "bootc" with
  | some bootc =>
    if c.bootc then
      (if !s.sudoAvailable then (.sudoRequired, [])
       else runAll s [{ elevated := true, program := bootc, args := ["upgrade"] }])
    else upgrade_redhat_after_bootc s c
  | none => upgrade_redhat_after_bootc s c

/-- `upgrade_bedrock_strata`: an elevated `brl update`. -/
def upgrade_bedrock_strata (s : Sys) (c : Config) : StepOutcome × List Invocation :=
  if !s.sudoAvailable then (.sudoRequired, [])
  else runAll s [{ elevated := true, program := "brl", args := ["update"] }]

/-- The elevated `brl update` request built (but never run) at the top of
`update_bedrock`; the same request `upgrade_bedrock_strata` does run. -/
def brlUpdateInv : Invocation :=
  { elevated := true, program := "brl", args := ["update"] }

/-- The unelevated, output-capturing `brl list` enumeration of `update_bedrock`
(run through `Command::new` directly, not through the execution context). -/
def brlListInv : Invocation :=
  { elevated := false, program := "brl", args := ["list"], capture := true }

/-- Dispatch of one `brl list` line in `update_bedrock`; unknown identifiers are
logged and ignored.  The Arch member procedure lives in the `archlinux` module,
outside this source file, so the environment supplies its behavior. -/
def bedrock_member (s : Sys) (c : Config) (d : String) : StepOutcome × List Invocation :=
  match d with
  | "arch" => s.archUpgrade
  | "debian" | "ubuntu" | "linuxmint" => upgrade_debian s c
  | "centos" | "fedora" => upgrade_redhat s c
  | "bedrock" => upgrade_bedrock_strata s c
  | _ => (.ok, [])

/-- The `for distribution in output.stdout.trim().lines()` loop of
`update_bedrock`: run each member, aborting at the first failure. -/
def bedrock_loop (s : Sys) (c : Config) : List String → StepOutcome × List Invocation
  | [] => (.ok, [])
  | d :: rest =>
    match bedrock_member s c d with
    | (.ok, t) =>
      ((bedrock_loop s c rest).1, t ++ (bedrock_loop s c rest).2)
    | (e, t) => (e, t)

/-- `update_bedrock`.  The elevated `brl update` request (`brlUpdateInv`) is
constructed in the source but no status method is ever called on it, so it is
not part of the executed trace here. -/
def update_bedrock (s : Sys) (c : Config) : StepOutcome × List Invocation :=
  if !s.sudoAvailable then (.sudoRequired, [])
  else
    if !(statusOk s brlListInv) then (.execFailed brlListInv, [brlListInv])
    else
      match bedrock_loop s c (rustLines (rustTrim (s.stdout brlListInv))) with
      | (o, t) => (o, brlListInv :: t)

/-- The first invocation `upgrade_vanilla` executes: `apx update --all`, plus
`-y` under assume-yes.  (`upgrade --all` is appended to this builder only after
it has already run.) -/
def vanUpdateInv (apx : String) (c : Config) : Invocation :=
  { elevated := false, program := apx, args := ["update", "--all"] ++ yesArg c }

/-- The second invocation `upgrade_vanilla` executes.  Because the source
appends `["upgrade", "--all"]` to the `update` builder instead of the `upgrade`
builder, this one carries at most the `-y` flag. -/
def vanUpgradeInv (apx : String) (c : Config) : Invocation :=
  { elevated := false, program := apx, args := yesArg c }

/-- Result of `upgrade_vanilla`, additionally recording the final contents of
the two argument accumulators (`update` and `upgrade` in the source). -/
structure VanillaRun where
  outcome : StepOutcome
  trace : List Invocation
  updateFinalArgs : List String
  upgradeFinalArgs : List String
  deriving DecidableEq, Repr

/-- `upgrade_vanilla`.  Faithfully reproduces the accumulator mix-up:
`update.args(["upgrade", "--all"])` mutates the already-executed `update`
builder, so the executed `upgrade` invocation never receives the subcommand. -/
def upgrade_vanilla (s : Sys) (c : Config) : VanillaRun :=
  match s.whichPath "apx" with
  | none => ⟨.toolMissing "apx", [], [], []⟩
  | some apx =>
    if !(statusOk s (vanUpdateInv apx c)) then
      ⟨.execFailed (vanUpdateInv apx c), [vanUpdateInv apx c], (vanUpdateInv apx c).args, []⟩
    else
      let updateFinal := (vanUpdateInv apx c).args ++ ["upgrade", "--all"]
      if !(statusOk s (vanUpgradeInv apx c)) then
        ⟨.execFailed (vanUpgradeInv apx c), [vanUpdateInv apx c, vanUpgradeInv apx c],
          updateFinal, (vanUpgradeInv apx c).args⟩
      else
        ⟨.ok, [vanUpdateInv apx c, vanUpgradeInv apx c], updateFinal, (vanUpgradeInv apx c).args⟩

/-- Panic message of `Option::unwrap` on `None`. -/
def unwrapMsg : String := "called Option::unwrap on a None value"

/-- `upgrade_openmandriva`.  `which("dnf").unwrap()` panics when `dnf` is
absent. -/
def upgrade_openmandriva (s : Sys) (c : Config) : StepOutcome × List Invocation :=
  if !s.sudoAvailable then (.sudoRequired, [])
  else
    match s.whichPath "dnf" with
    | none => (.panicked unwrapMsg, [])
    | some dnf =>
      runAll s
        [{ elevated := true, program := dnf,
           args := ["upgrade"] ++ dnfArgs c ++ yesArg c }]

/-- `upgrade_pclinuxos`.  `which("apt-get").unwrap()` panics when `apt-get` is
absent.  (The update phase really does consult `dnf_arguments`.) -/
def upgrade_pclinuxos (s : Sys) (c : Config) : StepOutcome × List Invocation :=
  if !s.sudoAvailable then (.sudoRequired, [])
  else
    match s.whichPath "apt-get" with
    | none => (.panicked unwrapMsg, [])
    | some aptget =>
      runAll s
        [{ elevated := true, program := aptget,
           args := ["update"] ++ dnfArgs c ++ yesArg c },
         { elevated := true, program := aptget,
           args := ["dist-upgrade"] ++ yesArg c }]

/-- The `pkcon refresh` invocation of `upgrade_neon`. -/
def neonRefreshInv (pkcon : String) : Invocation :=
  { elevated := true, program := pkcon, args := ["refresh"] }

/-- The `pkcon update` invocation of `upgrade_neon`; exit code 5 (nothing
useful was done) is accepted as success. -/
def neonUpdateInv (pkcon : String) (c : Config) : Invocation :=
  { elevated := true, program := pkcon,
    args := ["update"] ++ yesArg c ++ (if c.cleanup then ["--autoremove"] else []),
    acceptedCodes := [5] }

/-- `upgrade_neon`.  `which("pkcon").unwrap()` panics when `pkcon` is absent. -/
def upgrade_neon (s : Sys) (c : Config) : StepOutcome × List Invocation :=
  if !s.sudoAvailable then (.sudoRequired, [])
  else
    match s.whichPath "pkcon" with
    | none => (.panicked unwrapMsg, [])
    | some pkcon =>
      runAll s [neonRefreshInv pkcon, neonUpdateInv pkcon c]

/-- The `fwupdmgr refresh` invocation; exit code 2 is accepted as success. -/
def fwupdRefreshInv (f : String) : Invocation :=
  { elevated := false, program := f, args := ["refresh"], acceptedCodes := [2] }

/-- The second `fwupdmgr` invocation (`update` under the firmware-upgrade
policy, otherwise `get-updates`); exit code 2 is accepted as success. -/
def fwupdSecondInv (f : String) (c : Config) : Invocation :=
  { elevated := false, program := f,
    args := (if c.firmwareUpgrade then ["update"] ++ yesArg c else ["get-updates"]),
    acceptedCodes := [2] }

/-- `run_fwupdmgr`. -/
def run_fwupdmgr (s : Sys) (c : Config) : StepOutcome × List Invocation :=
  match s.whichPath "fwupdmgr" with
  | none => (.toolMissing "fwupdmgr", [])
  | some f =>
    if s.isWsl then (.skipped, [])
    else runAll s [fwupdRefreshInv f, fwupdSecondInv f c]

/-- Result of the `should_skip_needrestart` gate. -/
inductive NeedrestartGate where
  | proceed
  | skip
  | detectErr (e : TopgradeError)
  deriving DecidableEq, Repr

/-- `should_skip_needrestart`: skip for RedHat-based distributions, and for
Debian when the chosen apt front-end is `nala`. -/
def should_skip_needrestart (fs : FsState) (s : Sys) : NeedrestartGate :=
  match Distribution.detect fs with
  | .error e => .detectErr e
  | .ok d =>
    if d.redhat_based then .skip
    else if d == .Debian then
      (if pathEndsWith (debianAptPath s) "nala" then .skip else .proceed)
    else .proceed

/-- `run_needrestart`. -/
def run_needrestart (fs : FsState) (s : Sys) : StepOutcome × List Invocation :=
  if !s.sudoAvailable then (.sudoRequired, [])
  else
    match s.whichPath "needrestart" with
    | none => (.toolMissing "needrestart", [])
    | some needrestart =>
      match should_skip_needrestart fs s with
      | .skip => (.skipped, [])
      | .detectErr e => (.detectFailed e, [])
      | .proceed => runAll s [{ elevated := true, program := needrestart, args := [] }]

/-- The unelevated, output-capturing `waydroid status` probe. -/
def wayStatusInv (w : String) : Invocation :=
  { elevated := false, program := w, args := ["status"], capture := true }

/-- The elevated `waydroid upgrade` invocation. -/
def wayUpgradeInv (w : String) : Invocation :=
  { elevated := true, program := w, args := ["upgrade"] }

/-- Panic message of `run_waydroid` when no status line contains `Session:`. -/
def wayPanicMsg : String := "the output of waydroid status should contain Session:"

/-- `run_waydroid`.  The first status line containing `Session:` decides
whether the container is running; panics when no such line exists. -/
def run_waydroid (s : Sys) (c : Config) : StepOutcome × List Invocation :=
  if !s.sudoAvailable then (.sudoRequired, [])
  else
    match s.whichPath "waydroid" with
    | none => (.toolMissing "waydroid", [])
    | some w =>
      if !(statusOk s (wayStatusInv w)) then (.execFailed (wayStatusInv w), [wayStatusInv w])
      else
        match (rustLines (s.stdout (wayStatusInv w))).find?
            (fun line => containsSubstr line "Session:") with
        | none => (.panicked wayPanicMsg, [wayStatusInv w])
        | some session =>
          if containsSubstr session "RUNNING" && !c.yesWaydroid then
            (if !s.promptAnswer then (.skipped, [wayStatusInv w])
             else
               match runAll s [wayUpgradeInv w] with
               | (o, t) => (o, wayStatusInv w :: t))
          else
            match runAll s [wayUpgradeInv w] with
            | (o, t) => (o, wayStatusInv w :: t)

/-- The claim's statement of `ID_LIKE` fallback resolution, written from the
spec's words: split `ID_LIKE` on whitespace, test the tokens (exact equality)
against the fixed ordered family list debian/ubuntu, centos, suse,
arch/archlinux, alpine, fedora, and return the family variant of the first
entry with a matching token; in the suse branch the Tumbleweed variant is
chosen exactly when `ID` contains the substring `"tumbleweed"`. -/
def specIdLikeResolution (r : IniFile) : Except TopgradeError Distribution :=
  match r.idLike with
  | some raw =>
    let tokens := splitWhitespace raw
    if tokens.contains "debian" || tokens.contains "ubuntu" then .ok .Debian
    else if tokens.contains "centos" then .ok .CentOS
    else if tokens.contains "suse" then
      (if containsSubstr (r.id.getD "") "tumbleweed" then .ok .OpenSuseTumbleweed
       else .ok .Suse)
    else if tokens.contains "arch" || tokens.contains "archlinux" then .ok .Arch
    else if tokens.contains "alpine" then .ok .Alpine
    else if tokens.contains "fedora" then .ok (matchFedoraVariant r.variant)
    else .error .UnknownLinuxDistribution
  | none => .error .UnknownLinuxDistribution

/-! ## Claims -/

/-- A host with `apx` installed and every invocation succeeding. -/
def sysVanilla : Sys :=
  { whichPath := fun t => if t == "apx" then some "/usr/bin/apx" else none,
    pathExists := fun _ => false,
    exitCode := fun _ => 0, stdout := fun _ => "",
    sudoAvailable := true, isWsl := false, promptAnswer := false,
    archUpgrade := (.ok, []) }

/-- A host with elevation configured and every probed tool absent. -/
def sysNoTools : Sys :=
  { whichPath := fun _ => none, pathExists := fun _ => false,
    exitCode := fun _ => 0, stdout := fun _ => "",
    sudoAvailable := true, isWsl := false, promptAnswer := false,
    archUpgrade := (.ok, []) }

/-- Default policy: every flag off. -/
def cfgDefault : Config :=
  { yesSystem := false, yesWaydroid := false, cleanup := false, bootc := false,
    rpmOstree := false, redhatDistroSync := false, firmwareUpgrade := false }

/-- A host with elevation configured and only `needrestart` installed. -/
def sysNeedrestart : Sys :=
  { whichPath := fun t => if t == "needrestart" then some "/usr/sbin/needrestart" else none,
    pathExists := fun _ => false,
    exitCode := fun _ => 0, stdout := fun _ => "",
    sudoAvailable := true, isWsl := false, promptAnswer := false,
    archUpgrade := (.ok, []) }

/-- A CentOS filesystem state. -/
def fsCentOS : FsState :=
  ⟨false, .parsed ⟨false, some "centos", some "CentOS Linux", none, some "rhel fedora"⟩⟩

/-- A host where `waydroid status` reports no `Session:` line. -/
def sysWaydroidNoSession : Sys :=
  { whichPath := fun t => if t == "waydroid" then some "/usr/bin/waydroid" else none,
    pathExists := fun _ => false,
    exitCode := fun _ => 0,
    stdout := fun _ => "Vendor type:\tMAINLINE\n",
    sudoAvailable := true, isWsl := false, promptAnswer := false,
    archUpgrade := (.ok, []) }

/-- A host where only `/usr/bin/nala` exists among the apt front-end probes. -/
def sysNala : Sys :=
  { whichPath := fun _ => none,
    pathExists := fun p => p == "/usr/bin/nala",
    exitCode := fun _ => 0, stdout := fun _ => "",
    sudoAvailable := true, isWsl := false, promptAnswer := false,
    archUpgrade := (.ok, []) }

/-- A host where `fwupdmgr` and `pkcon` are installed, the firmware
invocations exit with code 2 and `pkcon update` exits with code 5. -/
def sysCodes : Sys :=
  { whichPath := fun t =>
      if t == "fwupdmgr" then some "fwupdmgr"
      else if t == "pkcon" then some "pkcon" else none,
    pathExists := fun _ => false,
    exitCode := fun inv =>
      if inv.acceptedCodes == [2] then 2 else if inv.acceptedCodes == [5] then 5 else 0,
    stdout := fun _ => "",
    sudoAvailable := true, isWsl := false, promptAnswer := false,
    archUpgrade := (.ok, []) }

/-- A host whose `waydroid status` output has its first `Session:`-containing
line NOT containing `RUNNING`, while a later line contains both. -/
def sysWaySecond : Sys :=
  { whichPath := fun t => if t == "waydroid" then some "/usr/bin/waydroid" else none,
    pathExists := fun _ => false, exitCode := fun _ => 0,
    stdout := fun _ => "XSession:\tSTOPPED\nSession:\tRUNNING\n",
    sudoAvailable := true, isWsl := false, promptAnswer := false,
    archUpgrade := (.ok, []) }

/-- A host whose `waydroid status` reports a running session, with the prompt
answered no. -/
def sysWayRunning : Sys :=
  { whichPath := fun t => if t == "waydroid" then some "/usr/bin/waydroid" else none,
    pathExists := fun _ => false, exitCode := fun _ => 0,
    stdout := fun _ => "Session:\tRUNNING\nVendor type:\tMAINLINE\n",
    sudoAvailable := true, isWsl := false, promptAnswer := false,
    archUpgrade := (.ok, []) }

/-- A Bedrock host whose `brl list` reports a single `debian` stratum, with
`apt-get` driving the member upgrade. -/
def sysBedrock : Sys :=
  { whichPath := fun _ => none,
    pathExists := fun _ => false,
    exitCode := fun _ => 0,
    stdout := fun _ => "debian\n",
    sudoAvailable := true, isWsl := false, promptAnswer := false,
    archUpgrade := (.ok, []) }

/-! ## Theorems -/

/-! ## Helper lemmas -/

theorem runAll_mem (s : Sys) (l : List Invocation) :
    ∀ i ∈ (runAll s l).2, i ∈ l := by
  induction l with
  | nil => simp [runAll]
  | cons a rest ih =>
    intro i hi
    by_cases h : statusOk s a
    · simp [runAll, h] at hi
      rcases hi with hi | hi
      · simp [hi]
      · exact List.mem_cons_of_mem a (ih i hi)
    · simp [runAll, h] at hi
      simp [hi]

theorem runAll_length (s : Sys) (l : List Invocation) :
    (runAll s l).2.length ≤ l.length := by
  induction l with
  | nil => simp [runAll]
  | cons a rest ih =>
    by_cases h : statusOk s a
    · simpa [runAll, h] using ih
    · simp [runAll, h]

/-- C1: for every identification record whose `ID` has no direct match in the
static table and whose `NAME` lacks the Vanilla marker, resolution is exactly
the ordered `ID_LIKE` token scan of the claim: whitespace-split tokens tested
by exact equality against debian/ubuntu, centos, suse, arch/archlinux, alpine,
fedora in that order, first match winning, with the suse branch choosing the
Tumbleweed variant precisely when `ID` contains the substring `"tumbleweed"`. -/
theorem C1_idlike_fallback (r : IniFile)
    (hdirect : directIdMatch r.id r.variant = none)
    (hname : hasVanillaName r = false) :
    Distribution.parse_os_release r = specIdLikeResolution r := by
  unfold Distribution.parse_os_release
  rw [hdirect]
  unfold parseFallback specIdLikeResolution
  rw [hname]
  simp

/-- Witness for C1 at a concrete record: `ID=opensuse-leap` (no direct match),
no Vanilla marker, `ID_LIKE="suse opensuse"`, resolving to the Suse variant. -/
theorem C1_idlike_fallback_witness :
    directIdMatch (some "opensuse-leap") none = none ∧
    hasVanillaName ⟨false, some "opensuse-leap", some "openSUSE Leap", none, some "suse opensuse"⟩ = false ∧
    Distribution.parse_os_release
      ⟨false, some "opensuse-leap", some "openSUSE Leap", none, some "suse opensuse"⟩ =
      specIdLikeResolution
        ⟨false, some "opensuse-leap", some "openSUSE Leap", none, some "suse opensuse"⟩ ∧
    Distribution.parse_os_release
      ⟨false, some "opensuse-leap", some "openSUSE Leap", none, some "suse opensuse"⟩ =
      .ok .Suse :=
  ⟨rfl, rfl,
    C1_idlike_fallback ⟨false, some "opensuse-leap", some "openSUSE Leap", none, some "suse opensuse"⟩ rfl rfl,
    rfl⟩

/-- C3: whenever the `/bedrock` marker path exists, `detect` returns the
Bedrock variant, whatever the identification file contains. -/
theorem C3_bedrock_short_circuit (fs : FsState) (h : fs.bedrockExists = true) :
    Distribution.detect fs = .ok .Bedrock := by
  unfold Distribution.detect
  rw [h]
  rfl

/-- Witness for C3 at a filesystem state whose identification file would
resolve to the Arch variant. -/
theorem C3_bedrock_short_circuit_witness :
    (FsState.mk true (.parsed ⟨false, some "arch", none, none, none⟩)).bedrockExists = true ∧
    Distribution.parse_os_release ⟨false, some "arch", none, none, none⟩ = .ok .Arch ∧
    Distribution.detect (FsState.mk true (.parsed ⟨false, some "arch", none, none, none⟩)) =
      .ok .Bedrock :=
  ⟨rfl, rfl, C3_bedrock_short_circuit (FsState.mk true (.parsed ⟨false, some "arch", none, none, none⟩)) rfl⟩

/-- C6: when resolution yields a RedHat-family variant, the needs-restart step
never executes the `needrestart` invocation, and (once elevation and the tool
are present, the step's own preconditions) it returns the skip outcome. -/
theorem C6_needrestart_redhat_skip (fs : FsState) (s : Sys) (d : Distribution)
    (hdet : Distribution.detect fs = .ok d) (hrh : d.redhat_based = true) :
    (run_needrestart fs s).2 = [] ∧
    (s.sudoAvailable = true → ∀ p, s.whichPath "needrestart" = some p →
      run_needrestart fs s = (.skipped, [])) := by
  have hgate : should_skip_needrestart fs s = .skip := by
    unfold should_skip_needrestart
    rw [hdet]
    simp [hrh]
  constructor
  · unfold run_needrestart
    by_cases hs : s.sudoAvailable
    · cases hw : s.whichPath "needrestart" with
      | none => simp [hs, hw]
      | some p => simp [hs, hw, hgate]
    · simp [hs]
  · intro hs p hp
    unfold run_needrestart
    simp [hs, hp, hgate]

/-- Witness for C6: a CentOS host with elevation and `needrestart` present. -/
theorem C6_needrestart_redhat_skip_witness :
    Distribution.detect fsCentOS = .ok .CentOS ∧
    Distribution.CentOS.redhat_based = true ∧
    sysNeedrestart.sudoAvailable = true ∧
    sysNeedrestart.whichPath "needrestart" = some "/usr/sbin/needrestart" ∧
    run_needrestart fsCentOS sysNeedrestart = (.skipped, []) :=
  ⟨rfl, rfl, rfl, rfl,
    (C6_needrestart_redhat_skip fsCentOS sysNeedrestart .CentOS rfl rfl).2 rfl
      "/usr/sbin/needrestart" rfl⟩

/-- C7: in the Vanilla procedure the upgrade-phase arguments `upgrade --all`
end up in the `update` accumulator, not the `upgrade` one: the final `update`
accumulator carries both `update --all` and `upgrade --all`, while the second
executed invocation carries at most the assume-yes flag and no upgrade
subcommand. -/
theorem C7_vanilla_accumulator (s : Sys) (c : Config) (apx : String)
    (hapx : s.whichPath "apx" = some apx)
    (hup : statusOk s (vanUpdateInv apx c) = true) :
    (upgrade_vanilla s c).updateFinalArgs =
      ["update", "--all"] ++ yesArg c ++ ["upgrade", "--all"] ∧
    (upgrade_vanilla s c).upgradeFinalArgs = yesArg c ∧
    (upgrade_vanilla s c).trace = [vanUpdateInv apx c, vanUpgradeInv apx c] ∧
    "upgrade" ∉ (upgrade_vanilla s c).upgradeFinalArgs ∧
    (vanUpgradeInv apx c).args = yesArg c := by
  have hyes : "upgrade" ∉ yesArg c := by
    unfold yesArg
    by_cases hy : c.yesSystem <;> simp [hy]
  unfold upgrade_vanilla
  rw [hapx]
  by_cases h2 : statusOk s (vanUpgradeInv apx c) <;>
    [simp only [hup, h2, Bool.not_true, Bool.false_eq_true, if_false, if_true];
     simp only [hup, h2, Bool.not_true, Bool.not_false, Bool.false_eq_true, if_false, if_true]] <;>
    simp [vanUpdateInv, vanUpgradeInv, hyes]

/-- Witness for C7: `apx` present, both invocations succeed, assume-yes off. -/
theorem C7_vanilla_accumulator_witness :
    sysVanilla.whichPath "apx" = some "/usr/bin/apx" ∧
    statusOk sysVanilla (vanUpdateInv "/usr/bin/apx" cfgDefault) = true ∧
    (upgrade_vanilla sysVanilla cfgDefault).updateFinalArgs =
      ["update", "--all", "upgrade", "--all"] ∧
    (upgrade_vanilla sysVanilla cfgDefault).upgradeFinalArgs = [] :=
  ⟨rfl, rfl,
    (C7_vanilla_accumulator sysVanilla cfgDefault "/usr/bin/apx" rfl rfl).1,
    (C7_vanilla_accumulator sysVanilla cfgDefault "/usr/bin/apx" rfl rfl).2.1⟩

/-- C8: with elevation available but `dnf`, `apt-get`, `pkcon` absent, the
OpenMandriva, PCLinuxOS and KDE-Neon procedures terminate abnormally (the
`Option::unwrap` panic) instead of returning a step-level error. -/
theorem C8_missing_tool_panics :
    upgrade_openmandriva sysNoTools cfgDefault = (.panicked unwrapMsg, []) ∧
    upgrade_pclinuxos sysNoTools cfgDefault = (.panicked unwrapMsg, []) ∧
    upgrade_neon sysNoTools cfgDefault = (.panicked unwrapMsg, []) :=
  ⟨rfl, rfl, rfl⟩

/-- C10: when no captured status line contains `Session:`, the Waydroid step
panics after the status probe, with no further invocation executed. -/
theorem C10_waydroid_panics (s : Sys) (c : Config) (w : String)
    (hsudo : s.sudoAvailable = true)
    (hw : s.whichPath "waydroid" = some w)
    (hst : statusOk s (wayStatusInv w) = true)
    (hno : ∀ l ∈ rustLines (s.stdout (wayStatusInv w)), containsSubstr l "Session:" = false) :
    run_waydroid s c = (.panicked wayPanicMsg, [wayStatusInv w]) := by
  have hfind : (rustLines (s.stdout (wayStatusInv w))).find?
      (fun line => containsSubstr line "Session:") = none := by
    rw [List.find?_eq_none]
    intro x hx
    simp [hno x hx]
  unfold run_waydroid
  simp [hsudo, hw, hst, hfind]

/-- Witness for C10 at a concrete probe output lacking any `Session:` line. -/
theorem C10_waydroid_panics_witness :
    sysWaydroidNoSession.sudoAvailable = true ∧
    sysWaydroidNoSession.whichPath "waydroid" = some "/usr/bin/waydroid" ∧
    run_waydroid sysWaydroidNoSession cfgDefault =
      (.panicked wayPanicMsg, [wayStatusInv "/usr/bin/waydroid"]) :=
  ⟨rfl, rfl,
    C10_waydroid_panics sysWaydroidNoSession cfgDefault "/usr/bin/waydroid" rfl rfl rfl
      (by decide)⟩

/-- C2: the Debian front-end is chosen in the fixed order apt-fast, mist,
/usr/bin/nala, apt-get; under mist the whole procedure is the two unelevated
`update`/`upgrade` invocations with no cleanup phase regardless of the cleanup
flag; under nala the separate metadata-update invocation is omitted and the
upgrade invocation's subcommand is `upgrade`, never `dist-upgrade`. -/
theorem C2_debian_frontend (s : Sys) (c : Config) :
    (∀ p, s.whichPath "apt-fast" = some p → debianAptPath s = p) ∧
    (s.whichPath "apt-fast" = none → (s.whichPath "mist").isSome = true →
      debianAptPath s = "mist") ∧
    (s.whichPath "apt-fast" = none → s.whichPath "mist" = none →
      s.pathExists "/usr/bin/nala" = true → debianAptPath s = "/usr/bin/nala") ∧
    (s.whichPath "apt-fast" = none → s.whichPath "mist" = none →
      s.pathExists "/usr/bin/nala" = false → debianAptPath s = "apt-get") ∧
    (pathEndsWith (debianAptPath s) "mist" = true →
      upgrade_debian s c =
        runAll s [⟨false, debianAptPath s, ["update"], false, []⟩,
                  ⟨false, debianAptPath s, ["upgrade"], false, []⟩] ∧
      (∀ i ∈ (upgrade_debian s c).2, i.elevated = false) ∧
      (∀ i ∈ (upgrade_debian s c).2, i.args = ["update"] ∨ i.args = ["upgrade"])) ∧
    (pathEndsWith (debianAptPath s) "nala" = true → s.sudoAvailable = true →
      (upgrade_debian s c).2.head? =
        some ⟨true, debianAptPath s, ["upgrade"] ++ yesArg c ++ aptArgs c, false, []⟩ ∧
      (∀ i ∈ (upgrade_debian s c).2,
        i.args.head? ≠ some "update" ∧ i.args.head? ≠ some "dist-upgrade")) := by
  refine ⟨?_, ?_, ?_, ?_, ?_, ?_⟩
  · intro p hp
    unfold debianAptPath
    rw [hp]
  · intro h1 h2
    unfold debianAptPath
    rw [h1, h2]
    rfl
  · intro h1 h2 h3
    unfold debianAptPath
    rw [h1, h2, h3]
    rfl
  · intro h1 h2 h3
    unfold debianAptPath
    rw [h1, h2, h3]
    rfl
  · intro hmist
    have heq : upgrade_debian s c =
        runAll s [⟨false, debianAptPath s, ["update"], false, []⟩,
                  ⟨false, debianAptPath s, ["upgrade"], false, []⟩] := by
      unfold upgrade_debian
      simp [hmist]
    refine ⟨heq, ?_, ?_⟩
    · intro i hi
      rw [heq] at hi
      have := runAll_mem s _ i hi
      simp at this
      rcases this with h | h <;> simp [h]
    · intro i hi
      rw [heq] at hi
      have := runAll_mem s _ i hi
      simp at this
      rcases this with h | h <;> simp [h]
  · intro hnala hsudo
    have hmist : pathEndsWith (debianAptPath s) "mist" = false := by
      unfold pathEndsWith at hnala ⊢
      have : (splitSlashAux (debianAptPath s).data []).getLastD "" = "nala" :=
        eq_of_beq hnala
      rw [this]
      decide
    have heq : upgrade_debian s c =
        runAll s ([⟨true, debianAptPath s, ["upgrade"] ++ yesArg c ++ aptArgs c, false, []⟩] ++
          (if c.cleanup then
            [⟨true, debianAptPath s, ["clean"], false, []⟩,
             ⟨true, debianAptPath s, ["autoremove"] ++ yesArg c, false, []⟩]
           else [])) := by
      unfold upgrade_debian
      simp [hmist, hnala, hsudo]
    constructor
    · rw [heq]
      simp only [List.singleton_append]
      unfold runAll
      split <;> simp
    · intro i hi
      rw [heq] at hi
      have := runAll_mem s _ i hi
      by_cases hcl : c.cleanup <;> simp [hcl] at this
      · rcases this with h | h | h <;> simp [h]
      · simp [this]

/-- Witness for C2: on a host with only nala installed, nala is selected and
the first executed invocation is the `upgrade` (not `dist-upgrade`) command. -/
theorem C2_debian_frontend_witness :
    sysNala.whichPath "apt-fast" = none ∧
    sysNala.whichPath "mist" = none ∧
    sysNala.pathExists "/usr/bin/nala" = true ∧
    debianAptPath sysNala = "/usr/bin/nala" ∧
    pathEndsWith (debianAptPath sysNala) "nala" = true ∧
    (upgrade_debian sysNala cfgDefault).2.head? =
      some ⟨true, debianAptPath sysNala, ["upgrade"] ++ yesArg cfgDefault ++ aptArgs cfgDefault,
        false, []⟩ :=
  ⟨rfl, rfl, rfl,
    (C2_debian_frontend sysNala cfgDefault).2.2.1 rfl rfl rfl,
    rfl,
    ((C2_debian_frontend sysNala cfgDefault).2.2.2.2.2 rfl rfl).1⟩

/-- C4: an exit code in an invocation's accepted set is success even when
nonzero, any code outside it (and nonzero) is failure; concretely, the
firmware-tool invocations accept exit code 2 (and abort the procedure on other
nonzero codes), and the KDE-Neon `pkcon update` invocation accepts exit
code 5. -/
theorem C4_accepted_exit_codes (s : Sys) (c : Config) (f p : String) :
    (∀ inv : Invocation, inv.acceptedCodes.contains (s.exitCode inv) = true →
      statusOk s inv = true) ∧
    (∀ inv : Invocation, s.exitCode inv ≠ 0 →
      inv.acceptedCodes.contains (s.exitCode inv) = false → statusOk s inv = false) ∧
    (s.whichPath "fwupdmgr" = some f → s.isWsl = false →
      (s.exitCode (fwupdRefreshInv f) = 2 → s.exitCode (fwupdSecondInv f c) = 2 →
        run_fwupdmgr s c = (.ok, [fwupdRefreshInv f, fwupdSecondInv f c])) ∧
      (s.exitCode (fwupdRefreshInv f) ≠ 0 → s.exitCode (fwupdRefreshInv f) ≠ 2 →
        run_fwupdmgr s c = (.execFailed (fwupdRefreshInv f), [fwupdRefreshInv f]))) ∧
    (s.sudoAvailable = true → s.whichPath "pkcon" = some p →
      statusOk s (neonRefreshInv p) = true →
      (s.exitCode (neonUpdateInv p c) = 5 →
        upgrade_neon s c = (.ok, [neonRefreshInv p, neonUpdateInv p c])) ∧
      (s.exitCode (neonUpdateInv p c) ≠ 0 → s.exitCode (neonUpdateInv p c) ≠ 5 →
        upgrade_neon s c =
          (.execFailed (neonUpdateInv p c), [neonRefreshInv p, neonUpdateInv p c]))) := by
  refine ⟨?_, ?_, ?_, ?_⟩
  · intro inv h
    have h' : s.exitCode inv ∈ inv.acceptedCodes := by simpa using h
    unfold statusOk
    simp [h']
  · intro inv h0 hmem
    have h' : s.exitCode inv ∉ inv.acceptedCodes := by simpa using hmem
    unfold statusOk
    simp [h0, h']
  · intro hf hwsl
    constructor
    · intro h1 h2
      have s1 : statusOk s (fwupdRefreshInv f) = true := by
        unfold statusOk
        rw [h1]
        simp [fwupdRefreshInv]
      have s2 : statusOk s (fwupdSecondInv f c) = true := by
        unfold statusOk
        rw [h2]
        simp [fwupdSecondInv]
      unfold run_fwupdmgr
      rw [hf]
      simp [hwsl, runAll, s1, s2]
    · intro h1 h2
      have s1 : statusOk s (fwupdRefreshInv f) = false := by
        have e2 : (fwupdRefreshInv f).acceptedCodes = [2] := rfl
        unfold statusOk
        rw [e2]
        simp [h1, h2]
      unfold run_fwupdmgr
      rw [hf]
      simp [hwsl, runAll, s1]
  · intro hsudo hp hrefresh
    constructor
    · intro h5
      have s2 : statusOk s (neonUpdateInv p c) = true := by
        unfold statusOk
        rw [h5]
        simp [neonUpdateInv]
      unfold upgrade_neon
      rw [hp]
      simp [hsudo, runAll, hrefresh, s2]
    · intro h0 h5
      have s2 : statusOk s (neonUpdateInv p c) = false := by
        have e5 : (neonUpdateInv p c).acceptedCodes = [5] := rfl
        unfold statusOk
        rw [e5]
        simp [h0, h5]
      unfold upgrade_neon
      rw [hp]
      simp [hsudo, runAll, hrefresh, s2]

/-- Witness for C4: both firmware invocations exiting 2 and `pkcon update`
exiting 5 are reported as success. -/
theorem C4_accepted_exit_codes_witness :
    sysCodes.exitCode (fwupdRefreshInv "fwupdmgr") = 2 ∧
    sysCodes.exitCode (neonUpdateInv "pkcon" cfgDefault) = 5 ∧
    run_fwupdmgr sysCodes cfgDefault =
      (.ok, [fwupdRefreshInv "fwupdmgr", fwupdSecondInv "fwupdmgr" cfgDefault]) ∧
    upgrade_neon sysCodes cfgDefault =
      (.ok, [neonRefreshInv "pkcon", neonUpdateInv "pkcon" cfgDefault]) :=
  ⟨rfl, rfl,
    ((C4_accepted_exit_codes sysCodes cfgDefault "fwupdmgr" "pkcon").2.2.1 rfl rfl).1 rfl rfl,
    ((C4_accepted_exit_codes sysCodes cfgDefault "fwupdmgr" "pkcon").2.2.2 rfl rfl rfl).1 rfl⟩

/-- C5 (amended): the gate keys on the FIRST status line containing
`Session:`.  When that line also contains `RUNNING` and assume-yes is off, a
declined prompt yields the skip outcome with no upgrade executed, and an
accepted prompt proceeds to execute the upgrade invocation. -/
theorem C5_waydroid_gate (s : Sys) (c : Config) (w ln : String)
    (hsudo : s.sudoAvailable = true)
    (hw : s.whichPath "waydroid" = some w)
    (hst : statusOk s (wayStatusInv w) = true)
    (hfind : (rustLines (s.stdout (wayStatusInv w))).find?
        (fun line => containsSubstr line "Session:") = some ln)
    (hrun : containsSubstr ln "RUNNING" = true)
    (hyes : c.yesWaydroid = false) :
    (s.promptAnswer = false → run_waydroid s c = (.skipped, [wayStatusInv w])) ∧
    (s.promptAnswer = true →
      (run_waydroid s c).2 = [wayStatusInv w, wayUpgradeInv w]) := by
  unfold run_waydroid
  constructor
  · intro hpa
    simp [hsudo, hw, hst, hfind, hrun, hyes, hpa]
  · intro hpa
    simp only [hsudo, hw, hst, hfind, hrun, hyes, hpa]
    simp [runAll]
    by_cases hup : statusOk s (wayUpgradeInv w) <;> simp [hup]

/-- Counterexample to C5 as stated: the captured output DOES contain a line
with `Session:` that also contains `RUNNING`, assume-yes is off and the prompt
would be declined, yet the step is not skipped and the upgrade invocation IS
executed — because the code keys on the first `Session:` line only. -/
theorem C5_counterexample :
    ((rustLines (sysWaySecond.stdout (wayStatusInv "/usr/bin/waydroid"))).any
      (fun l => containsSubstr l "Session:" && containsSubstr l "RUNNING") = true) ∧
    cfgDefault.yesWaydroid = false ∧
    sysWaySecond.promptAnswer = false ∧
    run_waydroid sysWaySecond cfgDefault =
      (.ok, [wayStatusInv "/usr/bin/waydroid", wayUpgradeInv "/usr/bin/waydroid"]) ∧
    wayUpgradeInv "/usr/bin/waydroid" ∈ (run_waydroid sysWaySecond cfgDefault).2 ∧
    (run_waydroid sysWaySecond cfgDefault).1 ≠ .skipped := by
  refine ⟨by decide, rfl, rfl, rfl, by decide, by decide⟩

/-- Witness for the amended C5: running session, assume-yes off, prompt
declined, so the step is skipped without executing the upgrade. -/
theorem C5_waydroid_gate_witness :
    (rustLines (sysWayRunning.stdout (wayStatusInv "/usr/bin/waydroid"))).find?
        (fun line => containsSubstr line "Session:") = some "Session:\tRUNNING" ∧
    containsSubstr "Session:\tRUNNING" "RUNNING" = true ∧
    sysWayRunning.promptAnswer = false ∧
    run_waydroid sysWayRunning cfgDefault = (.skipped, [wayStatusInv "/usr/bin/waydroid"]) :=
  ⟨rfl, rfl, rfl,
    (C5_waydroid_gate sysWayRunning cfgDefault "/usr/bin/waydroid" "Session:\tRUNNING"
      rfl rfl rfl rfl rfl rfl).1 rfl⟩

theorem debian_no_brl (s : Sys) (c : Config) :
    brlUpdateInv ∉ (upgrade_debian s c).2 := by
  intro hmem
  unfold upgrade_debian at hmem
  by_cases hmist : pathEndsWith (debianAptPath s) "mist"
  · simp only [hmist, if_true] at hmem
    have h := runAll_mem s _ _ hmem
    simp [brlUpdateInv, Invocation.mk.injEq] at h
  · by_cases hsudo : s.sudoAvailable
    · simp only [hmist, hsudo, Bool.not_true, Bool.false_eq_true, if_false] at hmem
      have h := runAll_mem s _ _ hmem
      by_cases hnala : pathEndsWith (debianAptPath s) "nala" <;>
        by_cases hcl : c.cleanup <;>
        simp [hnala, hcl, brlUpdateInv, Invocation.mk.injEq] at h
    · simp [hmist, hsudo] at hmem

theorem redhat_traditional_no_brl (s : Sys) (c : Config) :
    brlUpdateInv ∉ (upgrade_redhat_traditional s c).2 := by
  intro hmem
  unfold upgrade_redhat_traditional at hmem
  by_cases hsudo : s.sudoAvailable
  · simp only [hsudo, Bool.not_true, Bool.false_eq_true, if_false] at hmem
    have h := runAll_mem s _ _ hmem
    by_cases hds : c.redhatDistroSync <;>
      simp [hds, brlUpdateInv, Invocation.mk.injEq] at h
  · simp [hsudo] at hmem

theorem redhat_no_brl (s : Sys) (c : Config) :
    brlUpdateInv ∉ (upgrade_redhat s c).2 := by
  intro hmem
  unfold upgrade_redhat upgrade_redhat_after_bootc at hmem
  cases hb : s.whichPath "bootc" with
  | some bootc =>
    rw [hb] at hmem
    by_cases hcb : c.bootc
    · by_cases hsudo : s.sudoAvailable
      · simp only [hcb, hsudo, Bool.not_true, Bool.false_eq_true, if_false, if_true] at hmem
        have h := runAll_mem s _ _ hmem
        simp [brlUpdateInv, Invocation.mk.injEq] at h
      · simp [hcb, hsudo] at hmem
    · simp only [hcb, Bool.false_eq_true, if_false] at hmem
      cases ho : s.whichPath "rpm-ostree" with
      | some ostree =>
        rw [ho] at hmem
        by_cases hro : c.rpmOstree
        · simp only [hro, if_true] at hmem
          have h := runAll_mem s _ _ hmem
          simp [brlUpdateInv, Invocation.mk.injEq] at h
        · simp only [hro, Bool.false_eq_true, if_false] at hmem
          exact redhat_traditional_no_brl s c hmem
      | none =>
        rw [ho] at hmem
        exact redhat_traditional_no_brl s c hmem
  | none =>
    rw [hb] at hmem
    cases ho : s.whichPath "rpm-ostree" with
    | some ostree =>
      rw [ho] at hmem
      by_cases hro : c.rpmOstree
      · simp only [hro, if_true] at hmem
        have h := runAll_mem s _ _ hmem
        simp [brlUpdateInv, Invocation.mk.injEq] at h
      · simp only [hro, Bool.false_eq_true, if_false] at hmem
        exact redhat_traditional_no_brl s c hmem
    | none =>
      rw [ho] at hmem
      exact redhat_traditional_no_brl s c hmem

theorem bedrock_member_no_brl (s : Sys) (c : Config) (d : String)
    (hd : d ≠ "bedrock") (harch : brlUpdateInv ∉ s.archUpgrade.2) :
    brlUpdateInv ∉ (bedrock_member s c d).2 := by
  unfold bedrock_member
  split
  · exact harch
  · exact debian_no_brl s c
  · exact debian_no_brl s c
  · exact debian_no_brl s c
  · exact redhat_no_brl s c
  · exact redhat_no_brl s c
  · exact absurd rfl hd
  · simp

theorem bedrock_loop_no_brl (s : Sys) (c : Config)
    (harch : brlUpdateInv ∉ s.archUpgrade.2) :
    ∀ lines : List String, "bedrock" ∉ lines →
      brlUpdateInv ∉ (bedrock_loop s c lines).2 := by
  intro lines
  induction lines with
  | nil =>
    intro _
    simp [bedrock_loop]
  | cons d rest ih =>
    intro hnb
    have hd : d ≠ "bedrock" := fun h => hnb (h ▸ List.mem_cons_self d rest)
    have hrest : "bedrock" ∉ rest := fun h => hnb (List.mem_cons_of_mem d h)
    have hdm := bedrock_member_no_brl s c d hd harch
    unfold bedrock_loop
    cases hbm : bedrock_member s c d with
    | mk o t =>
      rw [hbm] at hdm
      cases o <;> simp_all [List.mem_append]

/-- C9: in the Bedrock procedure the first executed external command is the
unelevated output-capturing `brl list` enumeration; the elevated `brl update`
request built at the top is never executed (whenever no `bedrock` member line
re-creates the same request via the strata sub-procedure, and the external
Arch member procedure does not run it either), so its failure can never abort
the procedure. -/
theorem C9_bedrock_update_never_run (s : Sys) (c : Config)
    (hsudo : s.sudoAvailable = true) :
    (update_bedrock s c).2.head? = some brlListInv ∧
    brlListInv.elevated = false ∧
    brlListInv.capture = true ∧
    (brlUpdateInv ∉ s.archUpgrade.2 →
      "bedrock" ∉ rustLines (rustTrim (s.stdout brlListInv)) →
      brlUpdateInv ∉ (update_bedrock s c).2) := by
  refine ⟨?_, rfl, rfl, ?_⟩
  · unfold update_bedrock
    by_cases hl : statusOk s brlListInv <;> simp [hsudo, hl]
  · intro harch hnb
    unfold update_bedrock
    by_cases hl : statusOk s brlListInv
    · simp only [hsudo, hl, Bool.not_true, Bool.false_eq_true, if_false]
      intro hmem
      simp only [List.mem_cons] at hmem
      rcases hmem with h | h
      · exact absurd h (by decide)
      · exact bedrock_loop_no_brl s c harch _ hnb h
    · have hl' : statusOk s brlListInv = false := by simpa using hl
      simp only [hsudo, hl', Bool.not_false, if_true]
      decide

/-- Witness for C9: on a concrete Bedrock host with one debian stratum, the
trace starts with `brl list` and never contains the elevated `brl update`. -/
theorem C9_bedrock_update_never_run_witness :
    sysBedrock.sudoAvailable = true ∧
    brlUpdateInv ∉ sysBedrock.archUpgrade.2 ∧
    "bedrock" ∉ rustLines (rustTrim (sysBedrock.stdout brlListInv)) ∧
    (update_bedrock sysBedrock cfgDefault).2.head? = some brlListInv ∧
    brlUpdateInv ∉ (update_bedrock sysBedrock cfgDefault).2 :=
  ⟨rfl, by decide, by decide,
    (C9_bedrock_update_never_run sysBedrock cfgDefault rfl).1,
    (C9_bedrock_update_never_run sysBedrock cfgDefault rfl).2.2.2 (by decide) (by decide)⟩

end Topgrade
